import Mathlib

/-!
# Verification of pypeman's node execution and remote-admin layers

Shallow embedding of `pypeman/nodes.py` and
`pypeman/plugins/remoteadmin/views.py`.  Python values passed through
`json.loads` / `json.dumps` are modelled by the inductive `Json` below,
with an executable serializer `jdumps` and parser `jloads` (string
escaping is elided: every string the development manipulates is free of
quotes and backslashes, as in the repository's own frames).
-/

namespace Pypeman

/-- A JSON value (also the Python value `json.loads` yields). -/
inductive Json where
  | null
  | bool (b : Bool)
  | num (n : Int)
  | str (s : String)
  | arr (elems : List Json)
  | obj (fields : List (String × Json))
deriving Repr

mutual

/-- `json.dumps` (default separators `", "` and `": "`). -/
def jdumps : Json → String
  | .null => "null"
  | .bool true => "true"
  | .bool false => "false"
  | .num n => toString n
  | .str s => "\x22" ++ s ++ "\x22"
  | .arr l => "[" ++ jdumpsElems l ++ "]"
  | .obj l => "\x7b" ++ jdumpsFields l ++ "\x7d"

def jdumpsElems : List Json → String
  | [] => ""
  | [j] => jdumps j
  | j :: rest => jdumps j ++ ", " ++ jdumpsElems rest

def jdumpsFields : List (String × Json) → String
  | [] => ""
  | [(k, v)] => "\x22" ++ k ++ "\x22: " ++ jdumps v
  | (k, v) :: rest => "\x22" ++ k ++ "\x22: " ++ jdumps v ++ ", " ++ jdumpsFields rest

end

/-- Drop leading JSON whitespace. -/
def skipWs : List Char → List Char
  | c :: rest =>
    if c = ' ' ∨ c = '\n' ∨ c = '\t' ∨ c = '\r' then skipWs rest else c :: rest
  | [] => []

/-- Parse the remainder of a string literal (the opening quote consumed). -/
def parseStrChars : List Char → Option (List Char × List Char)
  | '\x22' :: rest => some ([], rest)
  | c :: rest =>
    match parseStrChars rest with
    | some (s, r) => some (c :: s, r)
    | none => none
  | [] => none

/-- Split the leading decimal digits off a character stream. -/
def takeDigits : List Char → List Char × List Char
  | c :: rest =>
    if c.isDigit then
      let (d, r) := takeDigits rest
      (c :: d, r)
    else ([], c :: rest)
  | [] => ([], [])

/-- Numeric value of a digit string. -/
def digitsVal : List Char → Nat → Nat
  | [], acc => acc
  | c :: rest, acc => digitsVal rest (acc * 10 + (c.toNat - '0'.toNat))

mutual

/-- Recursive-descent JSON parser (fuel bounds the recursion depth). -/
def parseVal (fuel : Nat) (s : List Char) : Option (Json × List Char) :=
  match fuel with
  | 0 => none
  | fuel + 1 =>
    match skipWs s with
    | 'n' :: 'u' :: 'l' :: 'l' :: r => some (.null, r)
    | 't' :: 'r' :: 'u' :: 'e' :: r => some (.bool true, r)
    | 'f' :: 'a' :: 'l' :: 's' :: 'e' :: r => some (.bool false, r)
    | '\x22' :: r =>
      match parseStrChars r with
      | some (cs, r') => some (.str (String.mk cs), r')
      | none => none
    | '[' :: r =>
      (match skipWs r with
       | ']' :: r' => some (.arr [], r')
       | _ =>
         match parseElems fuel r with
         | some (l, r') => some (.arr l, r')
         | none => none)
    | '\x7b' :: r =>
      (match skipWs r with
       | '\x7d' :: r' => some (.obj [], r')
       | _ =>
         match parseFields fuel r with
         | some (l, r') => some (.obj l, r')
         | none => none)
    | '-' :: r =>
      (match takeDigits r with
       | ([], _) => none
       | (ds, r') => some (.num (-(digitsVal ds 0 : Int)), r'))
    | c :: r =>
      if c.isDigit then
        match takeDigits (c :: r) with
        | (ds, r') => some (.num (digitsVal ds 0 : Int), r')
      else none
    | [] => none

/-- Parse one or more comma-separated array elements, then `]`. -/
def parseElems (fuel : Nat) (s : List Char) : Option (List Json × List Char) :=
  match fuel with
  | 0 => none
  | fuel + 1 =>
    match parseVal fuel s with
    | none => none
    | some (j, r) =>
      match skipWs r with
      | ',' :: r' =>
        (match parseElems fuel r' with
         | some (l, r'') => some (j :: l, r'')
         | none => none)
      | ']' :: r' => some ([j], r')
      | _ => none

/-- Parse one or more comma-separated `"key": value` fields, then the
closing brace. -/
def parseFields (fuel : Nat) (s : List Char) : Option (List (String × Json) × List Char) :=
  match fuel with
  | 0 => none
  | fuel + 1 =>
    match skipWs s with
    | '\x22' :: r =>
      (match parseStrChars r with
       | none => none
       | some (k, r') =>
         match skipWs r' with
         | ':' :: r'' =>
           (match parseVal fuel r'' with
            | none => none
            | some (v, r3) =>
              match skipWs r3 with
              | ',' :: r4 =>
                (match parseFields fuel r4 with
                 | some (l, r5) => some ((String.mk k, v) :: l, r5)
                 | none => none)
              | '\x7d' :: r4 => some ([(String.mk k, v)], r4)
              | _ => none)
         | _ => none)
    | _ => none

end

/-- `json.loads`: parse a whole string as one JSON value. -/
def jloads (s : String) : Option Json :=
  match parseVal (s.length + 1) s.toList with
  | some (j, rest) => if skipWs rest = [] then some j else none
  | none => none

/-- A Python exception as the embedding observes it (kind and message). -/
inductive Exn where
  | jsonDecodeError (s : String)
  | attributeError (s : String)
  | keyError (s : String)
  | valueError (s : String)
  | indexError (s : String)
  | typeError (s : String)
  | raised (s : String)
deriving Repr, DecidableEq

/-- `str(exc)`: the message an error entry renders. -/
def exnStr : Exn → String
  | .jsonDecodeError s => s
  | .attributeError s => s
  | .keyError s => "'" ++ s ++ "'"
  | .valueError s => s
  | .indexError s => s
  | .typeError s => s
  | .raised s => s

/-- `pypeman.message.Message` as the nodes see it: a payload (a Python
value) and a content type, both reassigned in place by `process`. -/
structure Message where
  payload : Json
  content_type : String
deriving Repr

/-- A stage transform: returns the next message or raises. -/
def Process : Type := Message → Except Exn Message

/-- `BaseNode.handle`: awaits `process(msg)` and returns its result (an
exception raised by `process` propagates to the caller unchanged). -/
def BaseNode.handle (process : Process) (msg : Message) : Except Exn Message :=
  process msg

/-- `BaseNode.process`: the identity transform. -/
def BaseNode.process : Process := fun msg => .ok msg

/-- `JsonToPython.process`: `msg.payload = json.loads(msg.payload)`;
`msg.content_type = 'application/python'`.  `json.loads` of a non-string
raises `TypeError`, of an unparseable string `json.JSONDecodeError`. -/
def JsonToPython.process : Process := fun msg =>
  match msg.payload with
  | .str s =>
    match jloads s with
    | some v => .ok { payload := v, content_type := "application/python" }
    | none => .error (.jsonDecodeError ("Expecting value: " ++ s))
  | _ => .error (.typeError "the JSON object must be str, bytes or bytearray")

/-- `PythonToJson.process`: `msg.payload = json.dumps(msg.payload)`;
`msg.content_type = 'application/json'`. -/
def PythonToJson.process : Process := fun msg =>
  .ok { payload := .str (jdumps msg.payload), content_type := "application/json" }

/-- Drive one message through a list of stages via `handle`, stopping on
the first raised exception (the channel walks its nodes in order). -/
def runChain (stages : List Process) (msg : Message) : Except Exn Message :=
  match stages with
  | [] => .ok msg
  | p :: rest =>
    match BaseNode.handle p msg with
    | .ok next => runChain rest next
    | .error e => .error e

/-! ## ThreadNode: the blocking-offload adapter

`ThreadNode.handle` submits `self.process(msg)` to a
`ThreadPoolExecutor(max_workers=1)` created inside the call and awaits the
resulting future.  The worker thread stores either the returned value or
the raised exception in the future; awaiting the future returns the value
or re-raises the exception in the awaiting coroutine. -/

/-- State of the future `run_in_executor` returns once the worker thread
has run the submitted callable. -/
inductive FutureState where
  | completed (m : Message)
  | failed (e : Exn)
deriving Repr

/-- The worker thread runs the callable and stores its value, or the
exception it raised, in the future. -/
def workerRun (process : Process) (msg : Message) : FutureState :=
  match process msg with
  | .ok m => .completed m
  | .error e => .failed e

/-- Awaiting the future: a completed future yields its value, a failed
one re-raises the captured exception at the await site. -/
def awaitFuture : FutureState → Except Exn Message
  | .completed m => .ok m
  | .failed e => .error e

/-- `ThreadNode.handle`: offload `process(msg)` to the fresh single-worker
executor and await the future. -/
def ThreadNode.handle (process : Process) (msg : Message) : Except Exn Message :=
  awaitFuture (workerRun process msg)

/-! ## Interleaving model of concurrent `ThreadNode.handle` invocations

Each invocation's offloaded work is either not yet started, executing on
its executor's worker thread, or finished.  A `begin` transition needs a
free worker on the invocation's executor; `ThreadPoolExecutor(max_workers=1)`
gives each executor exactly one worker, so the guard is that no other
work is executing on that same executor. -/

/-- Phase of one invocation's offloaded `process` call. -/
inductive Phase where
  | pending
  | working
  | done
deriving Repr, DecidableEq

/-- `ThreadNode.handle` constructs its `ThreadPoolExecutor(max_workers=1)`
inside the call (the `with` block), so invocation `i` submits to its own
executor `i`. -/
def freshExecutor (i : Nat) : Nat := i

/-- The alternative resource discipline (one long-lived single-worker
executor per stage): every invocation submits to executor `0`. -/
def sharedExecutor (_ : Nat) : Nat := 0

/-- How many invocations, numbered from `i` upward, are currently
executing on executor `e` under executor assignment `exe`. -/
def busyFrom (exe : Nat → Nat) (e : Nat) (i : Nat) : List Phase → Nat
  | [] => 0
  | p :: rest => (if exe i = e ∧ p = Phase.working then 1 else 0) + busyFrom exe e (i + 1) rest

/-- How many invocations are currently executing on executor `e`. -/
def busyOn (exe : Nat → Nat) (s : List Phase) (e : Nat) : Nat :=
  busyFrom exe e 0 s

/-- The shared counter incremented while the wrapped work executes: the
number of invocations currently in their `working` phase. -/
def counter (s : List Phase) : Nat :=
  (s.filter (fun p => p = Phase.working)).length

/-- One scheduler step: an invocation's offloaded work may begin when its
executor's single worker is free, and executing work may finish. -/
inductive Step (exe : Nat → Nat) : List Phase → List Phase → Prop where
  | begin (i : Nat) (s : List Phase) :
      s.get? i = some .pending →
      busyOn exe s (exe i) = 0 →
      Step exe s (s.set i .working)
  | finish (i : Nat) (s : List Phase) :
      s.get? i = some .working →
      Step exe s (s.set i .done)

/-- States reachable from `init` by scheduler steps. -/
inductive Reachable (exe : Nat → Nat) (init : List Phase) : List Phase → Prop where
  | refl : Reachable exe init init
  | step {s t : List Phase} : Reachable exe init s → Step exe s t → Reachable exe init t

/-! ## The remote-admin views (`pypeman/plugins/remoteadmin/views.py`) -/

/-- Field lookup in a JSON object's field list (first match). -/
def lookupField : List (String × Json) → String → Option Json
  | [], _ => none
  | (k, v) :: rest, key => if k = key then some v else lookupField rest key

/-- Remove a field from a JSON object's field list. -/
def removeField : List (String × Json) → String → List (String × Json)
  | [], _ => []
  | (k, v) :: rest, key =>
    if k = key then removeField rest key else (k, v) :: removeField rest key

/-- `d[key]` / `d.get(key)` on a Python value: a key of a dict, otherwise
nothing. -/
def jget (j : Json) (key : String) : Option Json :=
  match j with
  | .obj fields => lookupField fields key
  | _ => none

/-- `v is None`. -/
def isNull : Json → Bool
  | .null => true
  | _ => false

/-- `str(v)` for the values the session loop interpolates into
diagnostics. -/
def pyStr : Json → String
  | .null => "None"
  | .bool true => "True"
  | .bool false => "False"
  | .num n => toString n
  | .str s => s
  | v => jdumps v

/-- A message-store entry (`get_msg_content` / `get_preview_str` /
`replay` results): an object exposing `to_dict()`.  The store and
`pypeman.message` are collaborators outside the two source files; only
this interface is used. -/
structure MsgRes where
  dict : Json
deriving Repr

/-- `msg_res.to_dict()`. -/
def MsgRes.to_dict (m : MsgRes) : Json := m.dict

/-- Modelled from the spec: a stored message of the message store, whose
entry "carries a rendered timestamp string and a serialized message
body" (`pypeman.message.Message` is not among the source files). -/
structure StoredMessage where
  timestamp : Nat
  body : Json
deriving Repr

/-- Modelled from the spec: `message.timestamp_str()`, the rendered
timestamp string. -/
def StoredMessage.timestamp_str (m : StoredMessage) : String :=
  toString m.timestamp

/-- Modelled from the spec: `message.to_json()`, the serialized message
body. -/
def StoredMessage.to_json (m : StoredMessage) : String :=
  jdumps m.body

/-- The channel's message store, at the interface the handlers use: the
stored messages (for `search`/`total`) and the fallible per-id lookups. -/
structure MessageStore where
  messages : List StoredMessage
  get_msg_content : Json → Except Exn MsgRes
  get_preview_str : Json → Except Exn MsgRes

/-- Insert a message into a timestamp-sorted list (helper of
`orderMessages`). -/
def insertByTs (m : StoredMessage) : List StoredMessage → List StoredMessage
  | [] => [m]
  | x :: rest =>
    if m.timestamp ≤ x.timestamp then m :: x :: rest else x :: insertByTs m rest

/-- Sort messages by timestamp (insertion sort). -/
def sortByTs : List StoredMessage → List StoredMessage
  | [] => []
  | m :: rest => insertByTs m (sortByTs rest)

/-- Modelled from the spec: ordering of search results by the `order_by`
field (only the `timestamp` ordering is distinguished; the entries'
relative order is irrelevant to the claims). -/
def orderMessages (order_by : String) (msgs : List StoredMessage) : List StoredMessage :=
  if order_by = "timestamp" then sortByTs msgs else msgs

/-- Modelled from the spec: `message_store.search(start, count, order_by,
start_dt, end_dt, text, rtext)` returns the page of `count` entries from
offset `start` of the ordered store contents ("paginated search"; the
optional date/text filters restrict the entries and are not exercised by
the claims, so they are modelled as keeping every entry). -/
def MessageStore.search (store : MessageStore) (start count : Int) (order_by : String)
    (_start_dt _end_dt _text _rtext : Option String) : List StoredMessage :=
  ((orderMessages order_by store.messages).drop start.toNat).take count.toNat

/-- Modelled from the spec: `message_store.total()`, "the store size
ignoring pagination". -/
def MessageStore.total (store : MessageStore) : Int :=
  store.messages.length

/-- Channel status identifiers, modelled from the spec's state machine
\x7bstopped, starting, started, stopping, error\x7d. -/
def STARTED : Int := 2

/-- `stopped` status identifier. -/
def STOPPED : Int := 0

/-- Modelled from the spec: `BaseChannel.status_id_to_str`. -/
def status_id_to_str (i : Int) : String :=
  if i = 0 then "stopped"
  else if i = 1 then "starting"
  else if i = 2 then "started"
  else if i = 3 then "stopping"
  else "error"

/-- A channel as the views use it: name, parent flag, descriptor,
sub-channel descriptors, status, message store and `replay`. -/
structure Channel where
  name : String
  parent : Bool
  to_dict : List (String × Json)
  subchannels : Json
  status : Int
  message_store : MessageStore
  replay : Json → Except Exn MsgRes

/-- Modelled from the spec: `channel.start()` completes and leaves the
channel started. -/
def Channel.start (c : Channel) : Channel := { c with status := STARTED }

/-- Modelled from the spec: `channel.stop()` completes and leaves the
channel stopped. -/
def Channel.stop (c : Channel) : Channel := { c with status := STOPPED }

/-- The process state the views read: `channels.all_channels` and the
query of the request the websocket session was opened with. -/
structure Env where
  all_channels : List Channel
  request_query : List (String × String)

/-- `get_channel(name)`: the first channel of `channels.all_channels`
whose name equals `name`, else `None`.  The name compared may be any
value in the legacy path (`params[0]`); equality with the channel's
string name follows Python `==`. -/
def get_channel (chans : List Channel) (name : Json) : Option Channel :=
  match chans with
  | [] => none
  | c :: rest =>
    match name with
    | .str s => if s = c.name then some c else get_channel rest name
    | _ => get_channel rest name

/-- A frame the server sends: either the plain text
`WebSocketResponse.send_str` writes, or `str(SuccessResponse(result, id))`
of the RPC wrapper. -/
inductive SentFrame where
  | raw (s : String)
  | rpc (result : Json) (id : Json)
deriving Repr

/-- The websocket a handler writes to: the plain `web.WebSocketResponse`
or the `RPCWebSocketResponse` with its `rpc_data` attribute (absent until
`set_rpc_attrs` runs). -/
inductive Ws where
  | plain
  | rpc (rpc_data : Option Json)

/-- `RPCWebSocketResponse.send_str(message)`: evaluates
`SuccessResponse(json.loads(message), id=self.rpc_data["id"])` — the
argument `json.loads(message)` first, then the `rpc_data` attribute and
its `"id"` key — and sends its string form. -/
def RPCWebSocketResponse.send_str (rpc_data : Option Json) (message : String) :
    Except Exn SentFrame :=
  match jloads message with
  | none => .error (.jsonDecodeError ("Expecting value: " ++ message))
  | some j =>
    match rpc_data with
    | none => .error (.attributeError "'RPCWebSocketResponse' object has no attribute 'rpc_data'")
    | some rd =>
      match jget rd "id" with
      | none => .error (.keyError "id")
      | some i => .ok (.rpc j i)

/-- `ws.send_str(message)` on either kind of websocket. -/
def wsSend (ws : Ws) (message : String) : Except Exn SentFrame :=
  match ws with
  | .plain => .ok (.raw message)
  | .rpc rd => RPCWebSocketResponse.send_str rd message

/-- The data `list_channels` dumps: every top-level channel's descriptor
with its `subchannels` entry added. -/
def list_channels_data (env : Env) : Json :=
  .arr ((env.all_channels.filter (fun c => !c.parent)).map
    (fun chan => .obj (chan.to_dict ++ [("subchannels", chan.subchannels)])))

/-- `list_channels`: dump the channel list and send it. -/
def list_channels (env : Env) (ws : Ws) : Except Exn SentFrame :=
  wsSend ws (jdumps (list_channels_data env))

/-- `start_channel`: `chan = get_channel(channelname)` then
`await chan.start()` — with no channel found, `chan` is `None` and the
attribute access raises — then send `{name, status}`. -/
def start_channel (env : Env) (channelname : Json) (ws : Ws) : Except Exn SentFrame :=
  match get_channel env.all_channels channelname with
  | none => .error (.attributeError "'NoneType' object has no attribute 'start'")
  | some chan =>
    let chan := chan.start
    wsSend ws (jdumps (.obj [("name", .str chan.name),
      ("status", .str (status_id_to_str chan.status))]))

/-- `stop_channel`: as `start_channel`, with `await chan.stop()`. -/
def stop_channel (env : Env) (channelname : Json) (ws : Ws) : Except Exn SentFrame :=
  match get_channel env.all_channels channelname with
  | none => .error (.attributeError "'NoneType' object has no attribute 'stop'")
  | some chan =>
    let chan := chan.stop
    wsSend ws (jdumps (.obj [("name", .str chan.name),
      ("status", .str (status_id_to_str chan.status))]))

/-- Query lookup on the request's `rel_url.query`. -/
def strArg (args : List (String × String)) (key : String) : Option String :=
  match args with
  | [] => none
  | (k, v) :: rest => if k = key then some v else strArg rest key

/-- Python `int(s)` on a decimal string: the signed value of its digits,
a `ValueError` otherwise. -/
def pyInt (s : String) : Except Exn Int :=
  match s.toList with
  | '-' :: ds =>
    if ds ≠ [] ∧ ds.all Char.isDigit then .ok (-(digitsVal ds 0 : Int))
    else .error (.valueError ("invalid literal for int() with base 10: " ++ s))
  | ds =>
    if ds ≠ [] ∧ ds.all Char.isDigit then .ok (digitsVal ds 0)
    else .error (.valueError ("invalid literal for int() with base 10: " ++ s))

/-- `int(args.get(key, default))`: the parsed query value, or the integer
default when the key is absent. -/
def intArg (args : List (String × String)) (key : String) (dflt : Int) : Except Exn Int :=
  match strArg args key with
  | none => .ok dflt
  | some s => pyInt s

/-- The JSON body `list_msgs` sends: the searched page of messages, each
entry rewritten to its rendered timestamp and serialized body, plus the
store's total. -/
def list_msgs_resp (chanOpt : Option Channel) (args : List (String × String)) :
    Except Exn Json :=
  match chanOpt with
  | none => .error (.attributeError "'NoneType' object has no attribute 'message_store'")
  | some chan =>
    match intArg args "start" 0 with
    | .error e => .error e
    | .ok start =>
      match intArg args "count" 10 with
      | .error e => .error e
      | .ok count =>
        let order_by := (strArg args "order_by").getD "timestamp"
        let start_dt := strArg args "start_dt"
        let end_dt := strArg args "end_dt"
        let text := strArg args "text"
        let rtext := strArg args "rtext"
        let messages := chan.message_store.search start count order_by start_dt end_dt
          text rtext
        let entries := messages.map (fun m =>
          Json.obj [("timestamp", .str m.timestamp_str), ("message", .str m.to_json)])
        .ok (.obj [("messages", .arr entries), ("total", .num chan.message_store.total)])

/-- `list_msgs`: compute the body and send it (`args` is the query of the
request the handler reads, `request.rel_url.query`). -/
def list_msgs (env : Env) (channelname : Json) (args : List (String × String)) (ws : Ws) :
    Except Exn SentFrame :=
  match list_msgs_resp (get_channel env.all_channels channelname) args with
  | .error e => .error e
  | .ok body => wsSend ws (jdumps body)

/-- The body of `view_msg`'s `try` block:
`chan.message_store.get_msg_content(message_id)` then `.to_dict()` (with
no channel found, `chan` is `None` and the attribute access raises inside
the `try`). -/
def view_try (chanOpt : Option Channel) (message_id : Json) : Except Exn Json :=
  match chanOpt with
  | none => .error (.attributeError "'NoneType' object has no attribute 'message_store'")
  | some chan =>
    match chan.message_store.get_msg_content message_id with
    | .ok msg_res => .ok msg_res.to_dict
    | .error e => .error e

/-- The body of `preview_msg`'s `try` block, with `get_preview_str`. -/
def preview_try (chanOpt : Option Channel) (message_id : Json) : Except Exn Json :=
  match chanOpt with
  | none => .error (.attributeError "'NoneType' object has no attribute 'message_store'")
  | some chan =>
    match chan.message_store.get_preview_str message_id with
    | .ok msg_res => .ok msg_res.to_dict
    | .error e => .error e

/-- The body of `replay_msg`'s `try` block, with `chan.replay`. -/
def replay_try (chanOpt : Option Channel) (message_id : Json) : Except Exn Json :=
  match chanOpt with
  | none => .error (.attributeError "'NoneType' object has no attribute 'replay'")
  | some chan =>
    match chan.replay message_id with
    | .ok msg_res => .ok msg_res.to_dict
    | .error e => .error e

/-- The one-entry `result` list the three message handlers build: the
dict on success, `{"error": str(exc)}` when the `try` block raised. -/
def tryResult (r : Except Exn Json) : List Json :=
  match r with
  | .ok d => [d]
  | .error exc => [.obj [("error", .str (exnStr exc))]]

/-- `view_msg`: run the `try` block, append the entry, send the list. -/
def view_msg (env : Env) (channelname message_id : Json) (ws : Ws) : Except Exn SentFrame :=
  wsSend ws (jdumps (.arr (tryResult
    (view_try (get_channel env.all_channels channelname) message_id))))

/-- `preview_msg`: as `view_msg`, with `get_preview_str`. -/
def preview_msg (env : Env) (channelname message_id : Json) (ws : Ws) : Except Exn SentFrame :=
  wsSend ws (jdumps (.arr (tryResult
    (preview_try (get_channel env.all_channels channelname) message_id))))

/-- `replay_msg`: as `view_msg`, with `chan.replay`. -/
def replay_msg (env : Env) (channelname message_id : Json) (ws : Ws) : Except Exn SentFrame :=
  wsSend ws (jdumps (.arr (tryResult
    (replay_try (get_channel env.all_channels channelname) message_id))))

/-! ## The legacy session loop (`backport_old_client`) -/

/-- How control leaves one iteration of the session loop. -/
inductive IterOutcome where
  | next
  | finished
  | raised (e : Exn)
deriving Repr

/-- `cmd_data.pop("method")`: the popped value and the remaining dict; a
missing key raises `KeyError`, a non-dict has no `pop`. -/
def popMethod (j : Json) : Except Exn (Json × Json) :=
  match j with
  | .obj fields =>
    match lookupField fields "method" with
    | some m => .ok (m, .obj (removeField fields "method"))
    | none => .error (.keyError "method")
  | _ => .error (.attributeError "object has no attribute 'pop'")

/-- `params[i]`. -/
def paramIdx (params : Json) (i : Nat) : Except Exn Json :=
  match params with
  | .arr l =>
    match l.get? i with
    | some v => .ok v
    | none => .error (.indexError "list index out of range")
  | _ => .error (.typeError "object is not subscriptable")

/-- `params = cmd_data.get("params", [None])`. -/
def params_of (cmd_rest : Json) : Json :=
  (jget cmd_rest "params").getD (.arr [.null])

/-- `channelname = params[0]`. -/
def channelname_of (cmd_rest : Json) : Except Exn Json :=
  paramIdx (params_of cmd_rest) 0

/-- The `query_params` mapping the legacy `list_msgs` branch builds:
fixed positions 1..7 into named arguments, then the `None` values
dropped by the dict comprehension. -/
def legacy_list_msgs_query (params : Json) : Except Exn (List (String × Json)) :=
  match paramIdx params 1, paramIdx params 2, paramIdx params 3, paramIdx params 4,
      paramIdx params 5, paramIdx params 6, paramIdx params 7 with
  | .ok p1, .ok p2, .ok p3, .ok p4, .ok p5, .ok p6, .ok p7 =>
    .ok (([("start", p1), ("count", p2), ("order_by", p3), ("start_dt", p4),
          ("end_dt", p5), ("text", p6), ("rtext", p7)]).filter (fun kv => !(isNull kv.2)))
  | .error e, _, _, _, _, _, _ => .error e
  | _, .error e, _, _, _, _, _ => .error e
  | _, _, .error e, _, _, _, _ => .error e
  | _, _, _, .error e, _, _, _ => .error e
  | _, _, _, _, .error e, _, _ => .error e
  | _, _, _, _, _, .error e, _ => .error e
  | _, _, _, _, _, _, .error e => .error e

/-- Awaiting a dispatched handler inside the loop: a sent frame continues
the loop, an exception escapes it. -/
def deliver (r : Except Exn SentFrame) (rpc : Option Json) :
    List SentFrame × Option Json × IterOutcome :=
  match r with
  | .ok f => ([f], rpc, .next)
  | .error e => ([], rpc, .raised e)

/-- The method dispatch of the session loop. -/
def backport_dispatch (env : Env) (rpc : Option Json) (cmd_method params channelname : Json) :
    List SentFrame × Option Json × IterOutcome :=
  let ws := Ws.rpc rpc
  match cmd_method with
  | .str "channels" => deliver (list_channels env ws) rpc
  | .str "preview_msg" =>
    (match paramIdx params 1 with
     | .error e => ([], rpc, .raised e)
     | .ok message_id => deliver (preview_msg env channelname message_id ws) rpc)
  | .str "view_msg" =>
    (match paramIdx params 1 with
     | .error e => ([], rpc, .raised e)
     | .ok message_id => deliver (view_msg env channelname message_id ws) rpc)
  | .str "replay_msg" =>
    (match paramIdx params 1 with
     | .error e => ([], rpc, .raised e)
     | .ok message_id => deliver (replay_msg env channelname message_id ws) rpc)
  | .str "list_msgs" =>
    (match legacy_list_msgs_query params with
     | .error e => ([], rpc, .raised e)
     | .ok _query_params =>
       -- `request.rel_url.update_query(query_params)` builds a new URL and
       -- the result is discarded (yarl URLs are immutable), so `list_msgs`
       -- still reads the session request's own query
       deliver (list_msgs env channelname env.request_query ws) rpc)
  | .str "start_channel" => deliver (start_channel env channelname ws) rpc
  | .str "stop_channel" => deliver (stop_channel env channelname ws) rpc
  | m => deliver (wsSend ws (pyStr m ++ " is not a valid method")) rpc

/-- One iteration of `backport_old_client`'s `async for` over inbound
frames: the frames sent, the `rpc_data` attribute afterwards, and how
control leaves the iteration. -/
def backport_iter (env : Env) (rpc_data : Option Json) (frame : String) :
    List SentFrame × Option Json × IterOutcome :=
  match jloads frame with
  | none =>
    (match RPCWebSocketResponse.send_str rpc_data
        ("cannot parse ws json data (" ++ frame ++ ")") with
     | .ok f => ([f], rpc_data, .finished)
     | .error e => ([], rpc_data, .raised e))
  | some cmd_data =>
    let rpc := some cmd_data
    match popMethod cmd_data with
    | .error e => ([], rpc, .raised e)
    | .ok (cmd_method, cmd_rest) =>
      match channelname_of cmd_rest with
      | .error e => ([], rpc, .raised e)
      | .ok channelname =>
        backport_dispatch env rpc cmd_method (params_of cmd_rest) channelname

/-! ## Fixtures -/

/-- Fixture: a store result object. -/
def msgRes0 : MsgRes := ⟨.obj [("k", .num 1)]⟩

/-- Fixture: a store whose per-id lookups succeed. -/
def store0 : MessageStore :=
  { messages := []
    get_msg_content := fun _ => .ok msgRes0
    get_preview_str := fun _ => .ok msgRes0 }

/-- Fixture: one top-level channel. -/
def chan1 : Channel :=
  { name := "c1"
    parent := false
    to_dict := [("name", .str "c1")]
    subchannels := .arr []
    status := 0
    message_store := store0
    replay := fun _ => .ok msgRes0 }

/-- Fixture: an environment with one channel. -/
def env1 : Env := ⟨[chan1], []⟩

/-- Fixture: an environment with no channels. -/
def env0 : Env := ⟨[], []⟩

/-- Fixture: a store whose per-id lookups raise. -/
def storeBad : MessageStore :=
  { messages := []
    get_msg_content := fun _ => .error (.raised "message not found")
    get_preview_str := fun _ => .error (.raised "message not found") }

/-- Fixture: a channel whose store lookups and replay raise. -/
def chanBad : Channel :=
  { name := "cbad"
    parent := false
    to_dict := [("name", .str "cbad")]
    subchannels := .arr []
    status := 0
    message_store := storeBad
    replay := fun _ => .error (.raised "replay failed") }

/-- Fixture: an environment holding the failing channel. -/
def envBad : Env := ⟨[chanBad], []⟩

/-- Fixture: 25 stored messages. -/
def msgs25 : List StoredMessage := (List.range 25).map (fun i => ⟨i, .null⟩)

/-- Fixture: a store holding 25 messages. -/
def store25 : MessageStore :=
  { messages := msgs25
    get_msg_content := fun _ => .ok msgRes0
    get_preview_str := fun _ => .ok msgRes0 }

/-- Fixture: the channel holding the 25-message store. -/
def chan25 : Channel :=
  { name := "c25"
    parent := false
    to_dict := [("name", .str "c25")]
    subchannels := .arr []
    status := 0
    message_store := store25
    replay := fun _ => .ok msgRes0 }

/-- Fixture: the environment holding `chan25`. -/
def env25 : Env := ⟨[chan25], []⟩

/-- Fixture: the message of the JSON round-trip chain. -/
def jsonChainInput : Message := ⟨.str "\x7b\x22a\x22: 1\x7d", "text/plain"⟩

/-- Fixture: a frame that is not JSON. -/
def badFrame : String := "\x7boops"

/-- Fixture: the legacy `channels` frame with correlation id 7. -/
def chanFrame : String :=
  "\x7b\x22method\x22: \x22channels\x22, \x22params\x22: [null], \x22id\x22: 7\x7d"

/-- Fixture: what `json.loads` makes of `chanFrame`. -/
def chanCmd : Json :=
  .obj [("method", .str "channels"), ("params", .arr [.null]), ("id", .num 7)]

/-! ## Theorems -/

/-- C2: the Blocking-Offload adapter's `handle` yields the same outcome
as the wrapped stage's `process` applied directly (what `BaseNode.handle`
does): the transformed message on success, and an exception raised inside
the offloaded work is re-raised at the await site, hence delivered to the
awaiting caller as the error outcome rather than lost. -/
theorem threadnode_handle_refines_process (process : Process) (msg : Message) :
    ThreadNode.handle process msg = BaseNode.handle process msg
    ∧ (∀ m, process msg = .ok m → ThreadNode.handle process msg = .ok m)
    ∧ (∀ e, process msg = .error e → ThreadNode.handle process msg = .error e) := by
  unfold ThreadNode.handle BaseNode.handle workerRun awaitFuture
  refine ⟨?_, ?_, ?_⟩
  · cases process msg <;> rfl
  · intro m h; rw [h]
  · intro e h; rw [h]

/-- C8: the chain JsonToPython then PythonToJson, fed the payload
`{"a": 1}`, decodes and re-encodes it to a string that parses back to a
value structurally equal to the decoded input, and the message's
`content_type` ends as `application/json`. -/
theorem json_chain_roundtrip :
    ∃ (out : Message) (s : String),
      runChain [JsonToPython.process, PythonToJson.process] jsonChainInput = .ok out
      ∧ JsonToPython.process jsonChainInput
          = .ok ⟨.obj [("a", .num 1)], "application/python"⟩
      ∧ out.payload = .str s
      ∧ jloads s = some (.obj [("a", .num 1)])
      ∧ out.content_type = "application/json" :=
  ⟨⟨.str "\x7b\x22a\x22: 1\x7d", "application/json"⟩, "\x7b\x22a\x22: 1\x7d",
    rfl, rfl, rfl, rfl, rfl⟩

/-- C3: for every channel name and message id — the store lookups and the
replay being free to raise anything — `view_msg`, `preview_msg` and
`replay_msg` return normally with a single-entry result list, and when
the guarded work raised, that entry is `{"error": str(exc)}`. -/
theorem msg_handlers_catch_and_answer (env : Env) (channelname message_id : Json) :
    ((∃ entry, view_msg env channelname message_id .plain
        = .ok (.raw (jdumps (.arr [entry]))))
      ∧ ∀ exc, view_try (get_channel env.all_channels channelname) message_id = .error exc →
          view_msg env channelname message_id .plain
            = .ok (.raw (jdumps (.arr [.obj [("error", .str (exnStr exc))]]))))
    ∧ ((∃ entry, preview_msg env channelname message_id .plain
        = .ok (.raw (jdumps (.arr [entry]))))
      ∧ ∀ exc, preview_try (get_channel env.all_channels channelname) message_id = .error exc →
          preview_msg env channelname message_id .plain
            = .ok (.raw (jdumps (.arr [.obj [("error", .str (exnStr exc))]]))))
    ∧ ((∃ entry, replay_msg env channelname message_id .plain
        = .ok (.raw (jdumps (.arr [entry]))))
      ∧ ∀ exc, replay_try (get_channel env.all_channels channelname) message_id = .error exc →
          replay_msg env channelname message_id .plain
            = .ok (.raw (jdumps (.arr [.obj [("error", .str (exnStr exc))]])))) := by
  refine ⟨⟨?_, ?_⟩, ⟨?_, ?_⟩, ⟨?_, ?_⟩⟩
  · cases h : view_try (get_channel env.all_channels channelname) message_id with
    | ok d => exact ⟨d, by simp [view_msg, wsSend, tryResult, h]⟩
    | error exc => exact ⟨.obj [("error", .str (exnStr exc))],
        by simp [view_msg, wsSend, tryResult, h]⟩
  · intro exc h; simp [view_msg, wsSend, tryResult, h]
  · cases h : preview_try (get_channel env.all_channels channelname) message_id with
    | ok d => exact ⟨d, by simp [preview_msg, wsSend, tryResult, h]⟩
    | error exc => exact ⟨.obj [("error", .str (exnStr exc))],
        by simp [preview_msg, wsSend, tryResult, h]⟩
  · intro exc h; simp [preview_msg, wsSend, tryResult, h]
  · cases h : replay_try (get_channel env.all_channels channelname) message_id with
    | ok d => exact ⟨d, by simp [replay_msg, wsSend, tryResult, h]⟩
    | error exc => exact ⟨.obj [("error", .str (exnStr exc))],
        by simp [replay_msg, wsSend, tryResult, h]⟩
  · intro exc h; simp [replay_msg, wsSend, tryResult, h]

/-- C3 demonstration at a concrete input: against the failing store, each
handler answers with the inline error entry instead of raising. -/
theorem msg_handlers_catch_and_answer_witness :
    view_msg envBad (.str "cbad") (.num 1) .plain
      = .ok (.raw (jdumps (.arr [.obj [("error", .str "message not found")]])))
    ∧ replay_msg envBad (.str "cbad") (.num 1) .plain
      = .ok (.raw (jdumps (.arr [.obj [("error", .str "replay failed")]]))) :=
  ⟨((msg_handlers_catch_and_answer envBad (.str "cbad") (.num 1)).1.2
      (.raised "message not found") rfl),
    ((msg_handlers_catch_and_answer envBad (.str "cbad") (.num 1)).2.2.2
      (.raised "replay failed") rfl)⟩

/-- C4 fails on the code: `start_channel` and `stop_channel` wrap nothing
in `try`; with an unknown channel name, `get_channel` returns `None`, the
awaited attribute access raises, the exception escapes the handler and no
error entry is answered. -/
theorem start_stop_unknown_channel_counterexample :
    start_channel env0 (.str "nope") .plain
      = .error (.attributeError "'NoneType' object has no attribute 'start'")
    ∧ stop_channel env0 (.str "nope") .plain
      = .error (.attributeError "'NoneType' object has no attribute 'stop'")
    ∧ (∀ f, start_channel env0 (.str "nope") .plain ≠ .ok f)
    ∧ (∀ f, stop_channel env0 (.str "nope") .plain ≠ .ok f) := by
  refine ⟨rfl, rfl, ?_, ?_⟩ <;> intro f h <;> exact Except.noConfusion h

/-- C4 as amended: `view_msg`, `preview_msg` and `replay_msg` catch
command-level errors at the handler boundary (see C3), but `start_channel`
and `stop_channel` do not — invoked with a name matching no existing
channel, the exception raised on the missing channel escapes the
handler instead of being answered as a structured error entry. -/
theorem start_stop_unknown_channel_escapes (env : Env) (name : Json)
    (h : get_channel env.all_channels name = none) :
    start_channel env name .plain
      = .error (.attributeError "'NoneType' object has no attribute 'start'")
    ∧ stop_channel env name .plain
      = .error (.attributeError "'NoneType' object has no attribute 'stop'") := by
  constructor <;> simp [start_channel, stop_channel, h]

/-- C4 witness: the amended statement at a concrete unknown name. -/
theorem start_stop_unknown_channel_escapes_witness :
    start_channel env0 (.str "ghost") .plain
      = .error (.attributeError "'NoneType' object has no attribute 'start'")
    ∧ stop_channel env0 (.str "ghost") .plain
      = .error (.attributeError "'NoneType' object has no attribute 'stop'") :=
  start_stop_unknown_channel_escapes env0 (.str "ghost") rfl

/-- C5 meets a code bug: on a frame whose body is not JSON the session
loop calls `ws.send_str` with a plain diagnostic, but the overridden
`RPCWebSocketResponse.send_str` first runs `json.loads` on that
diagnostic — never valid JSON — so the send itself raises, the exception
escapes `backport_old_client`, and no diagnostic frame is delivered
(whether or not an earlier frame had set `rpc_data`). -/
theorem malformed_frame_diagnostic_raises :
    jloads badFrame = none
    ∧ backport_iter env1 none badFrame
      = ([], none, .raised (.jsonDecodeError
          ("Expecting value: cannot parse ws json data (\x7boops)")))
    ∧ backport_iter env1 (some (.obj [("id", .num 3)])) badFrame
      = ([], some (.obj [("id", .num 3)]), .raised (.jsonDecodeError
          ("Expecting value: cannot parse ws json data (\x7boops)"))) :=
  ⟨rfl, rfl, rfl⟩

/-- C6: under the codec round-trip contract (`json.loads ∘ json.dumps` is
the identity on the handler's data), the legacy frame
`{"method": "channels", "params": [null], "id": 7}` is answered by one
success response with correlation id 7 wrapping exactly the data
`list_channels` dumps when invoked directly; and in general every string
a handler sends through the RPC websocket is re-parsed and re-emitted
tagged with the stored request's correlation id. -/
theorem legacy_channels_wraps_handler_output (env : Env) (rd : Json) (msg : String)
    (j i : Json)
    (hrt : jloads (jdumps (list_channels_data env)) = some (list_channels_data env))
    (hmsg : jloads msg = some j) (hid : jget rd "id" = some i) :
    backport_iter env none chanFrame
      = ([.rpc (list_channels_data env) (.num 7)], some chanCmd, .next)
    ∧ list_channels env .plain = .ok (.raw (jdumps (list_channels_data env)))
    ∧ RPCWebSocketResponse.send_str (some rd) msg = .ok (.rpc j i) := by
  refine ⟨?_, rfl, ?_⟩
  · show deliver (RPCWebSocketResponse.send_str (some chanCmd)
        (jdumps (list_channels_data env))) (some chanCmd) = _
    simp only [RPCWebSocketResponse.send_str, hrt, deliver]
    rfl
  · simp only [RPCWebSocketResponse.send_str, hmsg, hid]

/-- C6 witness: the concrete one-channel environment, where the
round-trip hypothesis evaluates. -/
theorem legacy_channels_wraps_handler_output_witness :
    backport_iter env1 none chanFrame
      = ([.rpc (list_channels_data env1) (.num 7)], some chanCmd, .next)
    ∧ list_channels env1 .plain = .ok (.raw (jdumps (list_channels_data env1)))
    ∧ RPCWebSocketResponse.send_str (some chanCmd) (jdumps (list_channels_data env1))
      = .ok (.rpc (list_channels_data env1) (.num 7)) :=
  legacy_channels_wraps_handler_output env1 chanCmd (jdumps (list_channels_data env1))
    (list_channels_data env1) (.num 7) rfl rfl rfl

/-- C7: whenever the channel exists and the `start`/`count` query values
parse (both defaulted when absent — `start` to 0, `count` to 10,
`order_by` to `"timestamp"`), the `list_msgs` body holds at most `count`
message entries together with `total` equal to the store size ignoring
pagination, and every entry carries the rendered timestamp string and the
serialized message body. -/
theorem list_msgs_paginates (env : Env) (name : Json) (chan : Channel)
    (args : List (String × String)) (sv cv : Int)
    (hchan : get_channel env.all_channels name = some chan)
    (hs : intArg args "start" 0 = .ok sv)
    (hc : intArg args "count" 10 = .ok cv) :
    ∃ entries : List Json,
      list_msgs_resp (get_channel env.all_channels name) args
        = .ok (.obj [("messages", .arr entries),
            ("total", .num chan.message_store.total)])
      ∧ entries.length ≤ cv.toNat
      ∧ ∀ e ∈ entries, ∃ m : StoredMessage,
          e = .obj [("timestamp", .str m.timestamp_str),
            ("message", .str m.to_json)] := by
  rw [hchan]
  unfold list_msgs_resp
  rw [hs, hc]
  refine ⟨_, rfl, ?_, ?_⟩
  · simp only [List.length_map, MessageStore.search, List.length_take]
    exact min_le_left _ _
  · intro e he
    obtain ⟨m, _, hm⟩ := List.mem_map.mp he
    exact ⟨m, hm.symm⟩

/-- C7 witness: a store of 25 messages, `start=7` and the defaulted
`count`: at most 10 entries come back and `total` is 25. -/
theorem list_msgs_paginates_witness :
    ∃ entries : List Json,
      list_msgs_resp (get_channel env25.all_channels (.str "c25")) [("start", "7")]
        = .ok (.obj [("messages", .arr entries),
            ("total", .num chan25.message_store.total)])
      ∧ entries.length ≤ (10 : Int).toNat
      ∧ ∀ e ∈ entries, ∃ m : StoredMessage,
          e = .obj [("timestamp", .str m.timestamp_str),
            ("message", .str m.to_json)] :=
  list_msgs_paginates env25 (.str "c25") chan25 [("start", "7")] 7 10 rfl rfl rfl

/-- C9 fails on the code: position 1 of the legacy `list_msgs` params is
forwarded as the `start` argument, not `count` — the fixed order is
start/count/order_by/start_dt/end_dt/text/rtext, one name more than the
claim's list, everything shifted by one. -/
theorem legacy_list_msgs_position1_counterexample :
    legacy_list_msgs_query
        (.arr [.null, .num 5, .null, .null, .null, .null, .null, .null])
      = .ok [("start", .num 5)]
    ∧ ([("start", Json.num 5)] : List (String × Json))
      ≠ [("count", Json.num 5)] := by
  refine ⟨rfl, ?_⟩
  intro h
  injection h with h1 _
  have hk : "start" = "count" := congrArg Prod.fst h1
  exact absurd hk (by decide)

/-- C9 as amended: positions 1–7 of the legacy `list_msgs` params map in
a fixed order onto the named query arguments
start/count/order_by/start_dt/end_dt/text/rtext, and every `None`
position is omitted from the forwarded mapping rather than passed on. -/
theorem legacy_list_msgs_query_mapping (p0 p1 p2 p3 p4 p5 p6 p7 : Json) :
    ∃ qp, legacy_list_msgs_query (.arr [p0, p1, p2, p3, p4, p5, p6, p7]) = .ok qp
      ∧ (∀ kv ∈ qp, isNull kv.2 = false)
      ∧ (∀ k v, (k, v) ∈ qp ↔ (isNull v = false ∧
          ((k = "start" ∧ v = p1) ∨ (k = "count" ∧ v = p2)
            ∨ (k = "order_by" ∧ v = p3) ∨ (k = "start_dt" ∧ v = p4)
            ∨ (k = "end_dt" ∧ v = p5) ∨ (k = "text" ∧ v = p6)
            ∨ (k = "rtext" ∧ v = p7)))) := by
  refine ⟨_, rfl, ?_, ?_⟩
  · intro kv hkv
    have := (List.mem_filter.mp hkv).2
    simpa using this
  · intro k v
    rw [List.mem_filter]
    simp [Prod.ext_iff]
    tauto

/-- C10: a legacy frame that parses as JSON but holds no `"method"` key
makes `cmd_data.pop("method")` raise an uncaught `KeyError`: the iteration
ends with the exception escaping and nothing sent; whereas a frame with no
`"params"` key does not fail at extraction — `params` defaults to
`[None]`, from which the channel name (`None`) is taken. -/
theorem missing_method_raises_keyerror (env : Env) (rpc : Option Json) (frame : String)
    (fields fields2 : List (String × Json))
    (hparse : jloads frame = some (.obj fields))
    (hnometh : lookupField fields "method" = none)
    (hnoparams : lookupField fields2 "params" = none) :
    backport_iter env rpc frame = ([], some (.obj fields), .raised (.keyError "method"))
    ∧ channelname_of (.obj fields2) = .ok .null := by
  constructor
  · simp only [backport_iter, hparse, popMethod, hnometh]
  · simp only [channelname_of, params_of, jget, hnoparams, Option.getD, paramIdx,
      List.get?]

/-- C10 witness: the frame `{"a": 1}` — valid JSON, no `"method"` key —
raises `KeyError` with nothing sent, and a dict with no `"params"` key
yields channel name `None`. -/
theorem missing_method_raises_keyerror_witness :
    backport_iter env1 none "\x7b\x22a\x22: 1\x7d"
      = ([], some (.obj [("a", .num 1)]), .raised (.keyError "method"))
    ∧ channelname_of (.obj [("a", .num 1)]) = .ok .null :=
  missing_method_raises_keyerror env1 none "\x7b\x22a\x22: 1\x7d"
    [("a", .num 1)] [("a", .num 1)] rfl rfl rfl

/-- The counter splits over a cons cell. -/
lemma counter_cons (p : Phase) (rest : List Phase) :
    counter (p :: rest) = (if p = Phase.working then 1 else 0) + counter rest := by
  cases p with
  | pending => simp [counter, List.filter_cons]
  | working => simp [counter, List.filter_cons, Nat.add_comm]
  | done => simp [counter, List.filter_cons]

/-- With every invocation on the one shared executor, the busy count from
any index is the counter. -/
lemma busyFrom_shared (s : List Phase) : ∀ i, busyFrom sharedExecutor 0 i s = counter s := by
  induction s with
  | nil => intro i; rfl
  | cons p rest ih =>
    intro i
    have hr := ih (i + 1)
    simp [busyFrom, sharedExecutor, counter_cons, hr]

/-- Setting one phase to `working` raises the counter by at most one. -/
lemma counter_set_working_le (s : List Phase) : ∀ i, counter (s.set i .working) ≤ counter s + 1 := by
  induction s with
  | nil => intro i; simp [counter]
  | cons p rest ih =>
    intro i
    cases i with
    | zero =>
      show counter (.working :: rest) ≤ counter (p :: rest) + 1
      rw [counter_cons, counter_cons]
      have hw : (if Phase.working = Phase.working then (1 : Nat) else 0) = 1 := by decide
      rw [hw]
      omega
    | succ n =>
      show counter (p :: rest.set n .working) ≤ counter (p :: rest) + 1
      have := ih n
      rw [counter_cons, counter_cons]
      omega

/-- Setting one phase to `done` never raises the counter. -/
lemma counter_set_done_le (s : List Phase) : ∀ i, counter (s.set i .done) ≤ counter s := by
  induction s with
  | nil => intro i; simp [counter]
  | cons p rest ih =>
    intro i
    cases i with
    | zero =>
      show counter (.done :: rest) ≤ counter (p :: rest)
      rw [counter_cons, counter_cons]
      have hd : (if Phase.done = Phase.working then (1 : Nat) else 0) = 0 := by decide
      rw [hd]
      omega
    | succ n =>
      show counter (p :: rest.set n .done) ≤ counter (p :: rest)
      have := ih n
      rw [counter_cons, counter_cons]
      omega

/-- Any single scheduler step from a state whose counter is at most 1,
with every invocation submitting to the one shared single-worker
executor, keeps the counter at most 1. -/
lemma shared_step_counter (u t : List Phase) (h : Step sharedExecutor u t)
    (hu : counter u ≤ 1) : counter t ≤ 1 := by
  cases h with
  | begin i v hp hb =>
    have hb' : busyFrom sharedExecutor 0 0 u = 0 := hb
    have h0 : counter u = 0 := by rw [← busyFrom_shared u 0]; exact hb'
    have hle := counter_set_working_le u i
    omega
  | finish i v hp =>
    have hle := counter_set_done_le u i
    omega

/-- Both offloaded invocations can be running at once when each has its
own fresh single-worker executor: begin 0, then begin 1 (its own
executor's worker is free even while invocation 0 still runs). -/
lemma two_fresh_working_reachable :
    Reachable freshExecutor [Phase.pending, Phase.pending]
      [Phase.working, Phase.working] := by
  have h1 : Reachable freshExecutor [Phase.pending, Phase.pending]
      [Phase.working, Phase.pending] :=
    Reachable.step Reachable.refl
      (Step.begin 0 [Phase.pending, Phase.pending] rfl (by decide))
  exact Reachable.step h1
    (Step.begin 1 [Phase.working, Phase.pending] rfl (by decide))

/-- C1 fails on the code: `ThreadNode.handle` creates its
`ThreadPoolExecutor(max_workers=1)` per invocation, so two overlapping
invocations of the same wrapped stage each get their own worker, both
wrapped `process` calls can execute at once, and the shared counter
reaches 2 in a reachable schedule — it is not bounded by 1. -/
theorem blocking_offload_no_serialization_counterexample :
    Reachable freshExecutor [Phase.pending, Phase.pending]
      [Phase.working, Phase.working]
    ∧ counter [Phase.working, Phase.working] = 2
    ∧ ¬ counter [Phase.working, Phase.working] ≤ 1 :=
  ⟨two_fresh_working_reachable, by decide, by decide⟩

/-- C1 as amended: each invocation of the Blocking-Offload adapter's
`handle` acquires its own fresh single-worker execution context, so two
overlapping invocations of the same wrapped stage may execute the wrapped
work concurrently (the shared counter reaches 2); the single-worker
serialization bound holds only when the overlapping invocations submit to
one shared single-worker executor, where the counter never exceeds 1 in
any reachable state. -/
theorem blocking_offload_serialization_amended :
    (Reachable freshExecutor [Phase.pending, Phase.pending]
        [Phase.working, Phase.working]
      ∧ counter [Phase.working, Phase.working] = 2)
    ∧ ∀ s, Reachable sharedExecutor [Phase.pending, Phase.pending] s →
        counter s ≤ 1 := by
  refine ⟨⟨two_fresh_working_reachable, by decide⟩, ?_⟩
  intro s hr
  induction hr with
  | refl => decide
  | step hprev hstep ih => exact shared_step_counter _ _ hstep ih

end Pypeman
